import Mathlib

/-!
Verification development for the network-automation exercise scripts
(`backup.py`, `gather_lldp_neighbors.py`, `ntc_get_neighbors.py`,
`ntc_snmp.py`).  The Python scripts are shallowly embedded: Python dicts
become association lists, the third-party device libraries (netmiko /
NAPALM sessions) become explicit behaviour parameters given as `Except`
values, an uncaught Python exception becomes an `Except.error` that
propagates, and file-system effects become explicit traces of operations.
-/

/-- Error kinds that a device interaction can raise.  `timeout` models
`NetmikoTimeoutException` (or a NAPALM connect timeout), `auth` models
`NetmikoAuthenticationException`, and `other` models every remaining
exception a library call may raise (e.g. `ValueError` for an unsupported
`device_type`). -/
inductive DevErr where
  | timeout
  | auth
  | other
deriving DecidableEq, Repr

/-- A Python dict with string keys and string values, as an association
list in insertion order (a neighbor record such as
`\x7b"hostname": "sw1", "port": "Gi0/1"\x7d`). -/
abbrev Record := List (String × String)

/-- `dict.pop(k)`: returns the value under `k` together with the dict with
`k` removed, or `none` (a Python `KeyError`) when `k` is absent. -/
def popKey (k : String) (r : Record) : Option (String × Record) :=
  match r.lookup k with
  | some v => some (v, r.filter (fun p => p.1 != k))
  | none => none

/-- `dict[k] = v`: updates the value in place when `k` is present,
otherwise appends the new binding at the end (Python insertion order). -/
def setKey (k v : String) (r : Record) : Record :=
  if (r.lookup k).isSome then r.map (fun p => if p.1 == k then (k, v) else p)
  else r ++ [(k, v)]

/-- `k in dict` for a record. -/
def hasKey (k : String) (r : Record) : Bool :=
  (r.lookup k).isSome

/-- The body of the inner loop shared by both `replace_dict_key`
implementations:
`neighbor["neighbor"] = neighbor.pop("hostname")` then
`neighbor["neighbor_interface"] = neighbor.pop("port")`.
`Except.error ()` is the uncaught `KeyError`. -/
def rename_neighbor (r : Record) : Except Unit Record :=
  match popKey "hostname" r with
  | none => .error ()
  | some (h, r1) =>
    let r2 := setKey "neighbor" h r1
    match popKey "port" r2 with
    | none => .error ()
    | some (p, r3) => .ok (setKey "neighbor_interface" p r3)

/-- A list of neighbor records under one interface. -/
abbrev NeighborList := List Record

/-- `interface name → neighbor list`, the shape NAPALM's
`get_lldp_neighbors` returns for one device. -/
abbrev IfaceDict := List (String × NeighborList)

/-- `device name → interface dict`, the aggregated shape in
`gather_lldp_neighbors.py`. -/
abbrev LldpDict := List (String × IfaceDict)

/-- `for neighbor in neighbors: ...` over one neighbor list. -/
def rename_list : NeighborList → Except Unit NeighborList
  | [] => .ok []
  | r :: rs => do
    let r' ← rename_neighbor r
    let rs' ← rename_list rs
    return r' :: rs'

/-- `for neighbors in lldp_interfaces.values(): ...` over one per-device
interface dict. -/
def rename_iface_dict : IfaceDict → Except Unit IfaceDict
  | [] => .ok []
  | (i, ns) :: rest => do
    let ns' ← rename_list ns
    let rest' ← rename_iface_dict rest
    return (i, ns') :: rest'

namespace Gather

/-- `replace_dict_key` of `exercise2/gather_lldp_neighbors.py`: iterates
over all devices, then interfaces, then neighbor records, renaming
`hostname`→`neighbor` and `port`→`neighbor_interface` in each record.
A record missing one of the popped keys raises `KeyError`
(`Except.error`). -/
def replace_dict_key : LldpDict → Except Unit LldpDict
  | [] => .ok []
  | (dev, ifd) :: rest => do
    let ifd' ← rename_iface_dict ifd
    let rest' ← replace_dict_key rest
    return (dev, ifd') :: rest'

end Gather

namespace NtcGetNeighbors

/-- `replace_dict_key` of `exercise3/library/ntc_get_neighbors.py`: the
same rename over a single device's `interface → neighbor list` dict. -/
def replace_dict_key (d : IfaceDict) : Except Unit IfaceDict :=
  rename_iface_dict d

end NtcGetNeighbors

/-- Total variant of `rename_neighbor` used to state what the rename
produces on well-formed records (on a `KeyError` it returns the input). -/
def rename_total (r : Record) : Record :=
  match rename_neighbor r with
  | .ok r' => r'
  | .error _ => r

/-- `rename_total` mapped through one interface dict. -/
def rename_iface_total (d : IfaceDict) : IfaceDict :=
  d.map (fun q => (q.1, q.2.map rename_total))

/-- `rename_total` mapped through the whole device-keyed dict. -/
def rename_lldp_total (d : LldpDict) : LldpDict :=
  d.map (fun q => (q.1, rename_iface_total q.2))

/-- A raw neighbor record as the NAPALM driver guarantees it: it always
carries the `hostname` and `port` fields. -/
structure RawNeighbor where
  hostname : String
  port : String
deriving DecidableEq, Repr

/-- The dict NAPALM hands back for one raw neighbor. -/
def RawNeighbor.toRecord (r : RawNeighbor) : Record :=
  [("hostname", r.hostname), ("port", r.port)]

/-- NAPALM `get_lldp_neighbors` output for one device. -/
abbrev RawIfaceDict := List (String × List RawNeighbor)

/-- View of a raw NAPALM result as an untyped interface dict. -/
def rawToIfaceDict (d : RawIfaceDict) : IfaceDict :=
  d.map (fun p => (p.1, p.2.map RawNeighbor.toRecord))

/-- A record on which the rename cannot raise: it has both popped keys. -/
def wf_record (r : Record) : Bool :=
  hasKey "hostname" r && hasKey "port" r

/-- A record in normalized output form: it has the `neighbor` and
`neighbor_interface` fields and no residual `hostname`/`port` fields. -/
def renamed_record (r : Record) : Bool :=
  hasKey "neighbor" r && hasKey "neighbor_interface" r &&
    !hasKey "hostname" r && !hasKey "port" r

/-- Every neighbor record of an interface dict is well-formed. -/
def wf_iface (d : IfaceDict) : Prop :=
  ∀ ifc ∈ d, ∀ r ∈ ifc.2, wf_record r = true

/-- Every neighbor record of a device-keyed dict is well-formed. -/
def wf_lldp (d : LldpDict) : Prop :=
  ∀ dev ∈ d, ∀ ifc ∈ dev.2, ∀ r ∈ ifc.2, wf_record r = true

/-- Connection/extra parameters of one inventory device
(`hosts.yaml` entry). -/
structure DeviceInfo where
  device_type : String
  host : String
deriving DecidableEq, Repr

/-- The `devices` mapping of `hosts.yaml`: device name → parameters, in
file order. -/
abbrev Inventory := List (String × DeviceInfo)

/-- `COMMANDS.get(device_type, "show running-config")` in `backup.py`
`main`: the per-device-type command table lookup with its global
fallback. -/
def resolve_command (commands : List (String × String)) (device_type : String) : String :=
  (commands.lookup device_type).getD "show running-config"

/-- `f"\x7bBACKUP_DIR\x7d/\x7bdevice\x7d.cfg"`: the backup file path for one
device. -/
def cfgPath (dir name : String) : String :=
  dir ++ "/" ++ name ++ ".cfg"

namespace Backup

/-- `send_command` of `exercise1/backup.py`.  The netmiko interaction is
the `conn` argument: `.ok out` is a successful `ssh.send_command`,
`.error e` an exception raised inside the `with` block.  The function
initialises `output = ""`, catches only `NetmikoTimeoutException` and
`NetmikoAuthenticationException` (returning the still-empty `output`),
and lets any other exception propagate to the caller. -/
def send_command (conn : Except DevErr String) : Except DevErr String :=
  match conn with
  | .ok out => .ok out
  | .error .timeout => .ok ""
  | .error .auth => .ok ""
  | .error .other => .error .other

/-- The `for device, device_info in inventory["devices"].items()` loop of
`backup.py` `main`: per device it resolves the command, runs
`send_command` and writes `\x7bdir\x7d/\x7bdevice\x7d.cfg`.  Returns the write
trace (path, text) plus a flag that is `true` when an uncaught exception
aborted the loop (later devices are then never reached). -/
def run_loop (commands : List (String × String)) (dir : String)
    (conn : String → String → Except DevErr String) :
    Inventory → List (String × String) × Bool
  | [] => ([], false)
  | (name, info) :: rest =>
    match send_command (conn name (resolve_command commands info.device_type)) with
    | .error _ => ([], true)
    | .ok out =>
      let r := run_loop commands dir conn rest
      ((cfgPath dir name, out) :: r.1, r.2)

/-- Process outcome of one `backup.py` run: `fatal` is the
`sys.exit(1)` taken when `hosts.yaml` cannot be opened, `crashed` an
uncaught exception escaping `main` (non-zero exit with a traceback),
`finished` a normal completion.  Both non-fatal outcomes carry the files
written before the end. -/
inductive BOutcome where
  | fatal
  | crashed (written : List (String × String))
  | finished (written : List (String × String))
deriving DecidableEq, Repr

/-- The backup files written during a run. -/
def BOutcome.written : BOutcome → List (String × String)
  | .fatal => []
  | .crashed ws => ws
  | .finished ws => ws

/-- The process exit code of a backup run. -/
def BOutcome.exit_code : BOutcome → Nat
  | .fatal => 1
  | .crashed _ => 1
  | .finished _ => 0

/-- One whole `backup.py` run.  `invFile` is the result of opening and
parsing `hosts.yaml` (`.error` = `OSError`, on which `read_yaml` calls
`sys.exit(1)`); `conn name command` is the netmiko behaviour of the named
device for the sent command. -/
def run (invFile : Except Unit Inventory) (commands : List (String × String))
    (dir : String) (conn : String → String → Except DevErr String) : BOutcome :=
  match invFile with
  | .error _ => .fatal
  | .ok inv =>
    match run_loop commands dir conn inv with
    | (ws, true) => .crashed ws
    | (ws, false) => .finished ws

end Backup

/-- A file-system operation performed by `write_json_file`. -/
inductive FsOp where
  | mkdir (dir : String)
  | write (file : String) (content : LldpDict)
  | rename (src dst : String)
deriving Repr

/-- Whether an operation is a rename. -/
def FsOp.isRename : FsOp → Bool
  | .rename _ _ => true
  | _ => false

namespace Gather

/-- `write_json_file` of `exercise2/gather_lldp_neighbors.py`: creates the
parent directory when absent, then opens the target path itself for
writing and writes the serialized dict — a single direct write, no
temporary file and no rename. -/
def write_json_file (parent : String) (dir_exists : Bool) (file_name : String)
    (text : LldpDict) : List FsOp :=
  (if dir_exists then [] else [FsOp.mkdir parent]) ++ [FsOp.write file_name text]

/-- The body of the `try` block in `get_lldp_neighbors` of
`exercise2/gather_lldp_neighbors.py`: the NAPALM session is the `conn`
argument, the function initialises `device_lldp_neighbors = \x7b\x7d` and the
`except BaseException` clause turns every session failure into the empty
dict. -/
def fetch_result (conn : Except DevErr RawIfaceDict) : RawIfaceDict :=
  match conn with
  | .ok d => d
  | .error _ => []

/-- `get_lldp_neighbors` of `exercise2/gather_lldp_neighbors.py`.
`driver = get_network_driver(device_info["device_type"])` runs BEFORE the
`try:` block, so a failing driver lookup (`drv = .error`, e.g.
`ModuleImportError` for an unsupported `device_type`) raises uncaught and
propagates to the caller; only failures inside the `with` block (`conn`)
are caught and collapsed to the empty dict. -/
def get_lldp_neighbors (drv : Except Unit Unit) (conn : Except DevErr RawIfaceDict) :
    Except Unit RawIfaceDict :=
  match drv with
  | .error _ => .error ()
  | .ok _ =>
    match conn with
    | .ok d => .ok d
    | .error _ => .ok []

/-- The collection loop of `gather_lldp_neighbors.py` `main`:
`lldp_neighbors[device] = get_lldp_neighbors(device_info)` for every
inventory device, in order.  `drv` is the driver lookup keyed by
`device_type`; an uncaught driver-lookup exception aborts the loop and
propagates. -/
def collect (drv : String → Except Unit Unit)
    (conn : String → Except DevErr RawIfaceDict) : Inventory → Except Unit LldpDict
  | [] => .ok []
  | (name, info) :: rest => do
    let d ← get_lldp_neighbors (drv info.device_type) (conn name)
    let rest' ← collect drv conn rest
    return (name, rawToIfaceDict d) :: rest'

/-- The per-device entries `main` accumulates when every driver lookup
succeeds: each device's name mapped to the (possibly empty) fetched
dict. -/
def collected (inv : Inventory) (conn : String → Except DevErr RawIfaceDict) : LldpDict :=
  inv.map (fun p => (p.1, rawToIfaceDict (fetch_result (conn p.1))))

/-- Process outcome of one `gather_lldp_neighbors.py` run. -/
inductive GOutcome where
  | fatal
  | crashed
  | finished (result : LldpDict) (ops : List FsOp)
deriving Repr

/-- The process exit code of a gather run. -/
def GOutcome.exit_code : GOutcome → Nat
  | .fatal => 1
  | .crashed => 1
  | .finished _ _ => 0

/-- One whole `gather_lldp_neighbors.py` run: read `hosts.yaml`
(`sys.exit(1)` on `IOError`), collect per-device neighbors (an uncaught
driver-lookup exception crashes the process mid-collection), rename the
record keys (an uncaught `KeyError` would also crash), and write
`lldp_neighbors.json`. -/
def run (invFile : Except Unit Inventory) (drv : String → Except Unit Unit)
    (conn : String → Except DevErr RawIfaceDict) (dir_exists : Bool) : GOutcome :=
  match invFile with
  | .error _ => .fatal
  | .ok inv =>
    match collect drv conn inv with
    | .error _ => .crashed
    | .ok c =>
      match replace_dict_key c with
      | .error _ => .crashed
      | .ok d => .finished d (write_json_file "." dir_exists "lldp_neighbors.json" d)

end Gather

/-- The NAPALM provider dict of the Ansible modules. -/
structure Provider where
  hostname : String
  username : String
  password : String
deriving DecidableEq, Repr

/-- One SNMP community entry (`type` / `string` fields). -/
structure Community where
  comm_type : String
  comm_string : String
deriving DecidableEq, Repr

/-- The validated parameters of the `ntc_snmp` Ansible module. -/
structure ModuleParams where
  os : String
  provider : Provider
  community_strings : List Community
  contact : String
  location : String
  replace : Bool
deriving DecidableEq, Repr

/-- The SNMP state NAPALM's `get_snmp_information` returns, as an
abstract dict. -/
abbrev SnmpData := List (String × String)

/-- Data handed to a Jinja2 template: either the fetched SNMP state (for
the teardown template) or the module parameters (for the target
template). -/
inductive RenderData where
  | snmpInfo (d : SnmpData)
  | params (p : ModuleParams)
deriving DecidableEq, Repr

/-- One step of the `ntc_snmp` module run, at the granularity of the
NAPALM/template calls it performs. -/
inductive SnmpEv where
  | get_snmp_info
  | render (template : String)
  | load_merge (config : String)
  | compare_config
  | commit_config
deriving DecidableEq, Repr

namespace NtcSnmp

/-- Path of the teardown template. -/
def no_snmp_template : String := "library/templates/no_snmp_config.j2"

/-- Path of the target-configuration template. -/
def snmp_template : String := "library/templates/snmp_config.j2"

/-- `if len(res) > 0: device.commit_config()` in `config_device`. -/
def commit_evs (res : String) : List SnmpEv :=
  if 0 < res.length then [SnmpEv.commit_config] else []

/-- `config_device` of `exercise4/library/ntc_snmp.py`.  The NAPALM
session is the `conn` argument: `.ok diff` means the connection succeeded
and `compare_config` returned `diff`; `.error` a failed connection
(caught as `BaseException`, yielding the initial `res = ""` and no device
operations).  On success it loads the merge candidate, compares, commits
only when the diff is non-empty, and returns the diff. -/
def config_device (conn : Except DevErr String) (config : String) :
    String × List SnmpEv :=
  match conn with
  | .error _ => ("", [])
  | .ok diff => (diff, [SnmpEv.load_merge config, SnmpEv.compare_config] ++ commit_evs diff)

/-- `get_snmp_info` of `ntc_snmp.py`: fetches the device SNMP state,
catches `BaseException` and returns the initial `\x7b\x7d` on any failure. -/
def get_snmp_info (conn : Except DevErr SnmpData) : SnmpData × List SnmpEv :=
  ((match conn with
    | .ok d => d
    | .error _ => []), [SnmpEv.get_snmp_info])

/-- `generate_config` of `ntc_snmp.py`: renders a Jinja2 template over the
given data.  The template engine is the `render` argument. -/
def generate_config (render : String → RenderData → String) (template_file : String)
    (data : RenderData) : String × List SnmpEv :=
  (render template_file data, [SnmpEv.render template_file])

/-- What the module hands to `exit_json` as `config_changes`. -/
structure SnmpResult where
  snmp_config : String
  replaced : Bool
deriving DecidableEq, Repr

/-- The final `exit_json` call of the module. -/
structure ModuleExit where
  changed : Bool
  config_changes : SnmpResult
deriving DecidableEq, Repr

/-- `main` of `ntc_snmp.py`.  When `replace` is set it first fetches the
current SNMP state, renders the teardown template over it and pushes that
config; then (always) it renders the target template over the module
parameters and pushes it.  `changed` is reported exactly when the diff of
the target push is non-empty.  `conn cfg` is the NAPALM behaviour of the
device for a push of `cfg`. -/
def main (p : ModuleParams) (render : String → RenderData → String)
    (sconn : Except DevErr SnmpData) (conn : String → Except DevErr String) :
    ModuleExit × List SnmpEv :=
  let pre :=
    if p.replace then
      let gi := get_snmp_info sconn
      let gc := generate_config render no_snmp_template (.snmpInfo gi.1)
      let cd := config_device (conn gc.1) gc.1
      gi.2 ++ gc.2 ++ cd.2
    else []
  let tc := generate_config render snmp_template (.params p)
  let cd := config_device (conn tc.1) tc.1
  ({changed := decide (0 < cd.1.length),
    config_changes := {snmp_config := cd.1, replaced := p.replace}},
   pre ++ tc.2 ++ cd.2)

end NtcSnmp



/-- What the written backup file contains given the device's netmiko
behaviour: the command output on success, `""` on a caught connect
failure. -/
def expected_content (b : Except DevErr String) : String :=
  match b with
  | .ok s => s
  | .error _ => ""

/-- Formalization of the spec's atomic-write discipline for comparison
with the code: some temporary path distinct from the target is written
and then renamed over the target. -/
def writes_via_temp_rename (ops : List FsOp) (target : String) : Prop :=
  ∃ tmp c, tmp ≠ target ∧ FsOp.write tmp c ∈ ops ∧ FsOp.rename tmp target ∈ ops

example :
    rename_neighbor [("hostname", "sw1"), ("port", "Gi0/1")] =
      .ok [("neighbor", "sw1"), ("neighbor_interface", "Gi0/1")] := rfl

example : rename_neighbor [("port", "Gi0/1")] = .error () := rfl

example :
    Gather.replace_dict_key [("r1", [("Gi0/0", [[("hostname", "sw1"), ("port", "Gi0/1")]])])] =
      .ok [("r1", [("Gi0/0", [[("neighbor", "sw1"), ("neighbor_interface", "Gi0/1")]])])] := rfl

section RecordLemmas

lemma lookup_cons_ne {β : Type} (k' x : String) (y : β) (t : List (String × β))
    (h : k' ≠ x) : List.lookup k' ((x, y) :: t) = List.lookup k' t := by
  have hb : (k' == x) = false := by simpa using h
  rw [List.lookup_cons, hb]

lemma lookup_filter_ne (k k' : String) (r : Record) (h : k' ≠ k) :
    (r.filter (fun p => p.1 != k)).lookup k' = r.lookup k' := by
  induction r with
  | nil => simp
  | cons a t ih =>
    obtain ⟨x, y⟩ := a
    by_cases hx : x = k
    · subst hx
      rw [lookup_cons_ne k' x y t h]
      simpa [List.filter_cons] using ih
    · by_cases hk : x = k'
      · subst hk
        simp [List.filter_cons, hx, List.lookup_cons_self]
      · simp only [List.filter_cons]
        have hb : (x != k) = true := by simpa using hx
        rw [hb]
        simp only [if_true]
        rw [lookup_cons_ne k' x y _ (Ne.symm hk), lookup_cons_ne k' x y t (Ne.symm hk), ih]

lemma hasKey_filter_self (k : String) (r : Record) :
    hasKey k (r.filter (fun p => p.1 != k)) = false := by
  have hnone : (r.filter (fun p => p.1 != k)).lookup k = none := by
    rw [List.lookup_eq_none_iff]
    intro p hp
    have h2 : p.1 ≠ k := by simpa using (List.mem_filter.mp hp).2
    simpa using Ne.symm h2
  simp [hasKey, hnone]

lemma hasKey_filter_ne (k k' : String) (r : Record) (h : k' ≠ k) :
    hasKey k' (r.filter (fun p => p.1 != k)) = hasKey k' r := by
  simp [hasKey, lookup_filter_ne k k' r h]

lemma popKey_of_hasKey (k : String) (r : Record) (h : hasKey k r = true) :
    ∃ v, r.lookup k = some v ∧
      popKey k r = some (v, r.filter (fun p => p.1 != k)) := by
  obtain ⟨v, hv⟩ := Option.isSome_iff_exists.mp h
  exact ⟨v, hv, by simp [popKey, hv]⟩

lemma popKey_eq_none_of_not_hasKey (k : String) (r : Record) (h : hasKey k r = false) :
    popKey k r = none := by
  have hnone : r.lookup k = none := by
    rcases hl : r.lookup k with _ | v
    · rfl
    · rw [hasKey, hl] at h
      simp at h
  simp [popKey, hnone]

lemma lookup_mapSet_ne (k v k' : String) (r : Record) (h : k' ≠ k) :
    (r.map (fun p => if p.1 == k then (k, v) else p)).lookup k' = r.lookup k' := by
  induction r with
  | nil => simp
  | cons a t ih =>
    obtain ⟨x, y⟩ := a
    by_cases hx : x = k
    · subst hx
      simp only [List.map_cons, beq_self_eq_true, if_true]
      rw [lookup_cons_ne k' x v _ h, lookup_cons_ne k' x y t h, ih]
    · have hb : (x == k) = false := by simpa using hx
      simp only [List.map_cons, hb]
      by_cases hk : k' = x
      · subst hk
        simp [List.lookup_cons_self]
      · rw [if_neg (by simp [hx]), lookup_cons_ne k' x y _ hk, lookup_cons_ne k' x y t hk, ih]

lemma lookup_mapSet_self (k v : String) (r : Record) (h : (r.lookup k).isSome = true) :
    (r.map (fun p => if p.1 == k then (k, v) else p)).lookup k = some v := by
  induction r with
  | nil => simp at h
  | cons a t ih =>
    obtain ⟨x, y⟩ := a
    by_cases hx : x = k
    · subst hx
      simp [List.lookup_cons_self]
    · rw [lookup_cons_ne k x y t (Ne.symm hx)] at h
      simp only [List.map_cons]
      rw [if_neg (by simp [hx]), lookup_cons_ne k x y _ (Ne.symm hx), ih h]

lemma lookup_setKey_self (k v : String) (r : Record) :
    (setKey k v r).lookup k = some v := by
  unfold setKey
  by_cases h : (r.lookup k).isSome
  · simp only [h, if_true]
    exact lookup_mapSet_self k v r h
  · simp only [h, if_false]
    have hn : r.lookup k = none := Option.not_isSome_iff_eq_none.mp h
    simp [List.lookup_append, hn, List.lookup_cons_self]

lemma lookup_setKey_ne (k v k' : String) (r : Record) (h : k' ≠ k) :
    (setKey k v r).lookup k' = r.lookup k' := by
  unfold setKey
  by_cases hs : (r.lookup k).isSome
  · simp only [hs, if_true]
    exact lookup_mapSet_ne k v k' r h
  · simp only [hs, if_false]
    rw [if_neg (by simp), List.lookup_append, lookup_cons_ne k' k v [] h]
    simp

lemma hasKey_setKey_self (k v : String) (r : Record) :
    hasKey k (setKey k v r) = true := by
  simp [hasKey, lookup_setKey_self]

lemma hasKey_setKey_ne (k v k' : String) (r : Record) (h : k' ≠ k) :
    hasKey k' (setKey k v r) = hasKey k' r := by
  simp [hasKey, lookup_setKey_ne k v k' r h]

end RecordLemmas

section RenameLemmas

lemma rename_neighbor_spec (r : Record) (h : wf_record r = true) :
    rename_neighbor r = .ok (rename_total r) ∧
      renamed_record (rename_total r) = true ∧
      (rename_total r).lookup "neighbor" = r.lookup "hostname" ∧
      (rename_total r).lookup "neighbor_interface" = r.lookup "port" := by
  rw [wf_record, Bool.and_eq_true] at h
  obtain ⟨h1, h2⟩ := h
  obtain ⟨hv, hlook1, hpop1⟩ := popKey_of_hasKey "hostname" r h1
  set r1 := r.filter (fun p => p.1 != "hostname") with hr1
  set r2 := setKey "neighbor" hv r1 with hr2
  have hport_r1 : hasKey "port" r1 = hasKey "port" r :=
    hasKey_filter_ne "hostname" "port" r (by decide)
  have hport_r2 : hasKey "port" r2 = true := by
    rw [hr2, hasKey_setKey_ne "neighbor" hv "port" r1 (by decide), hport_r1]
    exact h2
  obtain ⟨pv, hlook2, hpop2⟩ := popKey_of_hasKey "port" r2 hport_r2
  set r3 := r2.filter (fun p => p.1 != "port") with hr3
  set r4 := setKey "neighbor_interface" pv r3 with hr4
  have hrun : rename_neighbor r = .ok r4 := by
    rw [rename_neighbor, hpop1]
    simp only []
    rw [← hr2, hpop2]
  have htotal : rename_total r = r4 := by
    rw [rename_total, hrun]
  have hlp : r2.lookup "port" = r.lookup "port" := by
    rw [hr2, lookup_setKey_ne "neighbor" hv "port" r1 (by decide), hr1,
      lookup_filter_ne "hostname" "port" r (by decide)]
  have hneighbor_r4 : r4.lookup "neighbor" = some hv := by
    rw [hr4, lookup_setKey_ne "neighbor_interface" pv "neighbor" r3 (by decide), hr3,
      lookup_filter_ne "port" "neighbor" r2 (by decide), hr2, lookup_setKey_self]
  have hiface_r4 : r4.lookup "neighbor_interface" = some pv := by
    rw [hr4, lookup_setKey_self]
  have hhost_r4 : hasKey "hostname" r4 = false := by
    rw [hr4, hasKey_setKey_ne "neighbor_interface" pv "hostname" r3 (by decide), hr3,
      hasKey_filter_ne "port" "hostname" r2 (by decide), hr2,
      hasKey_setKey_ne "neighbor" hv "hostname" r1 (by decide), hr1]
    exact hasKey_filter_self "hostname" r
  have hport_r4 : hasKey "port" r4 = false := by
    rw [hr4, hasKey_setKey_ne "neighbor_interface" pv "port" r3 (by decide), hr3]
    exact hasKey_filter_self "port" r2
  refine ⟨by rw [htotal]; exact hrun, ?_, ?_, ?_⟩
  · rw [htotal, renamed_record, hhost_r4, hport_r4]
    have hn : hasKey "neighbor" r4 = true := by
      rw [hasKey, hneighbor_r4]
      rfl
    have hni : hasKey "neighbor_interface" r4 = true := by
      rw [hasKey, hiface_r4]
      rfl
    rw [hn, hni]
    rfl
  · rw [htotal, hneighbor_r4, hlook1]
  · rw [htotal, hiface_r4, ← hlp, hlook2]

lemma rename_list_spec (ns : NeighborList) (h : ∀ r ∈ ns, wf_record r = true) :
    rename_list ns = .ok (ns.map rename_total) := by
  induction ns with
  | nil => rfl
  | cons r rs ih =>
    have hr := (rename_neighbor_spec r (h r (List.mem_cons_self r rs))).1
    have hrs := ih (fun r' hr' => h r' (List.mem_cons_of_mem r hr'))
    rw [rename_list, hr, hrs]
    rfl

lemma rename_iface_spec (d : IfaceDict) (h : wf_iface d) :
    rename_iface_dict d = .ok (rename_iface_total d) := by
  induction d with
  | nil => rfl
  | cons ifc rest ih =>
    obtain ⟨i, ns⟩ := ifc
    have hns := rename_list_spec ns (fun r hr => h (i, ns) (List.mem_cons_self _ _) r hr)
    have hrest := ih (fun q hq r hr => h q (List.mem_cons_of_mem _ hq) r hr)
    rw [rename_iface_dict, hns, hrest]
    rfl

lemma gather_replace_spec (d : LldpDict) (h : wf_lldp d) :
    Gather.replace_dict_key d = .ok (rename_lldp_total d) := by
  induction d with
  | nil => rfl
  | cons dev rest ih =>
    obtain ⟨n, ifd⟩ := dev
    have hifd := rename_iface_spec ifd (fun q hq r hr => h (n, ifd) (List.mem_cons_self _ _) q hq r hr)
    have hrest := ih (fun q hq i hi r hr => h q (List.mem_cons_of_mem _ hq) i hi r hr)
    rw [Gather.replace_dict_key, hifd, hrest]
    rfl

lemma wf_toRecord (r : RawNeighbor) : wf_record r.toRecord = true := by
  have h1 : List.lookup "hostname" [("hostname", r.hostname), ("port", r.port)] =
      some r.hostname := List.lookup_cons_self
  have h2 : List.lookup "port" [("hostname", r.hostname), ("port", r.port)] =
      some r.port := by
    rw [lookup_cons_ne "port" "hostname" r.hostname _ (by decide), List.lookup_cons_self]
  rw [wf_record, RawNeighbor.toRecord, hasKey, hasKey, h1, h2]
  rfl

lemma wf_rawToIfaceDict (d : RawIfaceDict) : wf_iface (rawToIfaceDict d) := by
  intro ifc hifc r hr
  rw [rawToIfaceDict] at hifc
  obtain ⟨p, _, hp⟩ := List.mem_map.mp hifc
  rw [← hp] at hr
  obtain ⟨raw, _, hraw⟩ := List.mem_map.mp hr
  rw [← hraw]
  exact wf_toRecord raw

end RenameLemmas

section RunLemmas

lemma send_command_of_no_other (b : Except DevErr String) (h : b ≠ .error .other) :
    Backup.send_command b = .ok (expected_content b) := by
  cases b with
  | ok s => rfl
  | error e =>
    cases e with
    | timeout => rfl
    | auth => rfl
    | other => exact absurd rfl h

lemma backup_loop_eq (commands : List (String × String)) (dir : String)
    (conn : String → String → Except DevErr String) (inv : Inventory)
    (h : ∀ n c, conn n c ≠ .error .other) :
    Backup.run_loop commands dir conn inv =
      (inv.map (fun p =>
        (cfgPath dir p.1,
         expected_content (conn p.1 (resolve_command commands p.2.device_type)))), false) := by
  induction inv with
  | nil => rfl
  | cons a t ih =>
    obtain ⟨name, info⟩ := a
    rw [Backup.run_loop,
      send_command_of_no_other _ (h name (resolve_command commands info.device_type)), ih]
    rfl

lemma backup_run_eq (commands : List (String × String)) (dir : String)
    (conn : String → String → Except DevErr String) (inv : Inventory)
    (h : ∀ n c, conn n c ≠ .error .other) :
    Backup.run (.ok inv) commands dir conn =
      .finished (inv.map (fun p =>
        (cfgPath dir p.1,
         expected_content (conn p.1 (resolve_command commands p.2.device_type))))) := by
  rw [Backup.run, backup_loop_eq commands dir conn inv h]

lemma get_lldp_neighbors_drv_ok (conn : Except DevErr RawIfaceDict) :
    Gather.get_lldp_neighbors (.ok ()) conn = .ok (Gather.fetch_result conn) := by
  cases conn <;> rfl

lemma collect_eq_of_drv_ok (drv : String → Except Unit Unit)
    (conn : String → Except DevErr RawIfaceDict) (inv : Inventory)
    (h : ∀ p ∈ inv, drv p.2.device_type = .ok ()) :
    Gather.collect drv conn inv = .ok (Gather.collected inv conn) := by
  induction inv with
  | nil => rfl
  | cons a t ih =>
    obtain ⟨name, info⟩ := a
    have hd : drv info.device_type = .ok () := h (name, info) (List.mem_cons_self _ _)
    rw [Gather.collect, hd, get_lldp_neighbors_drv_ok (conn name),
      ih (fun p hp => h p (List.mem_cons_of_mem _ hp))]
    rfl

lemma collect_err_of_bad_drv (drv : String → Except Unit Unit)
    (conn : String → Except DevErr RawIfaceDict) (inv : Inventory)
    (h : ∃ p ∈ inv, drv p.2.device_type = .error ()) :
    Gather.collect drv conn inv = .error () := by
  induction inv with
  | nil => simp at h
  | cons a t ih =>
    obtain ⟨name, info⟩ := a
    obtain ⟨p, hp, hpe⟩ := h
    rcases List.mem_cons.mp hp with heq | hmem
    · subst heq
      rw [Gather.collect, hpe]
      rfl
    · rw [Gather.collect]
      cases hh : Gather.get_lldp_neighbors (drv info.device_type) (conn name) with
      | error e =>
        cases e
        rfl
      | ok d =>
        rw [ih ⟨p, hmem, hpe⟩]
        rfl

lemma wf_collected (inv : Inventory) (conn : String → Except DevErr RawIfaceDict) :
    wf_lldp (Gather.collected inv conn) := by
  intro dev hdev ifc hifc r hr
  rw [Gather.collected] at hdev
  obtain ⟨p, _, hp⟩ := List.mem_map.mp hdev
  rw [← hp] at hifc
  exact wf_rawToIfaceDict (Gather.fetch_result (conn p.1)) ifc hifc r hr

lemma gather_run_eq (inv : Inventory) (drv : String → Except Unit Unit)
    (conn : String → Except DevErr RawIfaceDict) (dir_exists : Bool)
    (h : ∀ p ∈ inv, drv p.2.device_type = .ok ()) :
    Gather.run (.ok inv) drv conn dir_exists =
      .finished (rename_lldp_total (Gather.collected inv conn))
        (Gather.write_json_file "." dir_exists "lldp_neighbors.json"
          (rename_lldp_total (Gather.collected inv conn))) := by
  simp only [Gather.run, collect_eq_of_drv_ok drv conn inv h,
    gather_replace_spec _ (wf_collected inv conn)]

lemma gather_run_crashed (inv : Inventory) (drv : String → Except Unit Unit)
    (conn : String → Except DevErr RawIfaceDict) (dir_exists : Bool)
    (h : ∃ p ∈ inv, drv p.2.device_type = .error ()) :
    Gather.run (.ok inv) drv conn dir_exists = .crashed := by
  rw [Gather.run, collect_err_of_bad_drv drv conn inv h]

lemma lookup_map_of_nodup {β : Type} (l : Inventory) (f : String × DeviceInfo → β)
    (name : String) (info : DeviceInfo)
    (hnd : (l.map Prod.fst).Nodup) (hmem : (name, info) ∈ l) :
    (l.map (fun p => (p.1, f p))).lookup name = some (f (name, info)) := by
  induction l with
  | nil => simp at hmem
  | cons a t ih =>
    obtain ⟨x, y⟩ := a
    rw [List.map_cons] at hnd
    rcases List.mem_cons.mp hmem with heq | hmem'
    · obtain ⟨hx, hy⟩ := Prod.mk.injEq .. ▸ heq
      subst hx
      subst hy
      exact List.lookup_cons_self
    · have hx_notin : x ∉ t.map Prod.fst := (List.nodup_cons.mp hnd).1
      have hname_in : name ∈ t.map Prod.fst :=
        List.mem_map.mpr ⟨(name, info), hmem', rfl⟩
      have hne : name ≠ x := fun heq => hx_notin (heq ▸ hname_in)
      rw [List.map_cons, lookup_cons_ne name x (f (x, y)) _ hne]
      exact ih (List.nodup_cons.mp hnd).2 hmem'

end RunLemmas

lemma length_pos_iff_ne_empty (s : String) : 0 < s.length ↔ s ≠ "" := by
  rw [String.length, Nat.pos_iff_ne_zero, ne_eq, List.length_eq_zero, ← String.ext_iff]

/-- C2 counterexample: `send_command` in `backup.py` does not catch every
exception arising while executing a task.  An error outside
`NetmikoTimeoutException`/`NetmikoAuthenticationException` (modelled as
`DevErr.other`, e.g. netmiko's `ValueError` for an unsupported
`device_type`) propagates past the function boundary instead of being
turned into a failure value. -/
theorem C2_counterexample :
    Backup.send_command (.error DevErr.other) = .error DevErr.other := rfl

/-- C2 (amended): per-device error capture as the code implements it.
`backup.py`'s `send_command` catches connect-timeout and authentication
errors and returns the failure value `""`, but any other exception
propagates to the caller.  `gather_lldp_neighbors.py`'s
`get_lldp_neighbors` catches every exception raised inside its `try`
block (`except BaseException`) and returns the empty dict, but the
`get_network_driver` call precedes the `try`, so a failing driver lookup
(e.g. `ModuleImportError` for an unsupported `device_type`) propagates
past the boundary. -/
theorem C2_error_capture :
    Backup.send_command (.error DevErr.timeout) = .ok "" ∧
    Backup.send_command (.error DevErr.auth) = .ok "" ∧
    (∀ s, Backup.send_command (.ok s) = .ok s) ∧
    Backup.send_command (.error DevErr.other) = .error DevErr.other ∧
    (∀ e, Gather.get_lldp_neighbors (.ok ()) (.error e) = .ok []) ∧
    (∀ d, Gather.get_lldp_neighbors (.ok ()) (.ok d) = .ok d) ∧
    (∀ conn, Gather.get_lldp_neighbors (.error ()) conn = .error ()) :=
  ⟨rfl, rfl, fun _ => rfl, rfl, fun _ => rfl, fun _ => rfl, fun _ => rfl⟩

/-- C8: a device type absent from the per-device-type command table
resolves to the global fallback command `show running-config`;
the lookup-with-default never raises, so an unrecognized type does not
abort the batch. -/
theorem C8_fallback_command :
    ∀ (commands : List (String × String)) (device_type : String),
      commands.lookup device_type = none →
      resolve_command commands device_type = "show running-config" := by
  intro commands t h
  rw [resolve_command, h]
  rfl

/-- C8 witness: an unknown device type against a concrete command table. -/
theorem C8_witness :
    resolve_command [("cisco_ios", "show running-config"), ("juniper", "show configuration")]
      "unknown" = "show running-config" :=
  C8_fallback_command _ _ (by decide)

/-- C9: `config_device` returns the diff `compare_config` computed and
commits exactly when that diff is non-empty (an empty diff is never
committed, and a failed connection commits nothing); the module reports
`changed=True` exactly when the diff returned by the target-config push
is non-empty. -/
theorem C9_commit_iff_diff :
    (∀ (d : String) (config : String),
      NtcSnmp.config_device (.ok d) config =
        (d, [SnmpEv.load_merge config, SnmpEv.compare_config] ++ NtcSnmp.commit_evs d)) ∧
    (∀ (conn : Except DevErr String) (config : String),
      SnmpEv.commit_config ∈ (NtcSnmp.config_device conn config).2 ↔
        (NtcSnmp.config_device conn config).1 ≠ "") ∧
    (∀ p render sconn conn,
      ((NtcSnmp.main p render sconn conn).1.changed = true ↔
        (NtcSnmp.main p render sconn conn).1.config_changes.snmp_config ≠ "")) ∧
    (∀ p render sconn conn,
      (NtcSnmp.main p render sconn conn).1.config_changes.snmp_config =
        (NtcSnmp.config_device (conn (render NtcSnmp.snmp_template (.params p)))
          (render NtcSnmp.snmp_template (.params p))).1) := by
  refine ⟨fun d config => rfl, ?_, ?_, fun p render sconn conn => rfl⟩
  · intro conn config
    cases conn with
    | error e =>
      simp [NtcSnmp.config_device]
    | ok d =>
      simp only [NtcSnmp.config_device, NtcSnmp.commit_evs]
      by_cases h : 0 < d.length
      · simp [h, (length_pos_iff_ne_empty d).mp h]
      · rw [length_pos_iff_ne_empty, not_not] at h
        subst h
        simp [NtcSnmp.commit_evs]
  · intro p render sconn conn
    rw [NtcSnmp.main]
    simp only []
    rw [decide_eq_true_iff, length_pos_iff_ne_empty]

/-- C5 counterexample: `write_json_file` performs no temporary-file write
and no rename at all — on a concrete aggregated dict its operation trace
is a single direct write to `lldp_neighbors.json`, so the claimed
write-to-temp-then-rename discipline does not hold. -/
theorem C5_counterexample :
    ¬ writes_via_temp_rename
        (Gather.write_json_file "." true "lldp_neighbors.json" [("r1", [])])
        "lldp_neighbors.json" := by
  rintro ⟨tmp, c, hne, hw, hr⟩
  simp [Gather.write_json_file] at hr

/-- C5 (amended): `write_json_file` creates the parent directory when
missing and then writes the serialized document directly to the target
path; its trace contains no rename, so the write is not atomic and a
crash mid-write can leave a partial target file.  Every gather run that
reaches the write (in particular every run whose driver lookups all
succeed) hands the final aggregated dict to exactly this writer. -/
theorem C5_direct_write :
    (∀ (parent : String) (dir_exists : Bool) (file_name : String) (text : LldpDict),
      FsOp.write file_name text ∈ Gather.write_json_file parent dir_exists file_name text ∧
      (∀ op ∈ Gather.write_json_file parent dir_exists file_name text, op.isRename = false)) ∧
    (∀ (inv : Inventory) (drv : String → Except Unit Unit)
        (conn : String → Except DevErr RawIfaceDict) (dir_exists : Bool),
      (∀ p ∈ inv, drv p.2.device_type = .ok ()) →
      ∃ d, Gather.run (.ok inv) drv conn dir_exists =
        .finished d (Gather.write_json_file "." dir_exists "lldp_neighbors.json" d)) := by
  constructor
  · intro parent b fn t
    constructor
    · simp [Gather.write_json_file]
    · intro op hop
      rw [Gather.write_json_file] at hop
      rcases List.mem_append.mp hop with h1 | h2
      · cases b with
        | true => simp at h1
        | false =>
          simp at h1
          rw [h1]
          rfl
      · simp at h2
        rw [h2]
        rfl
  · intro inv drv conn b hdrv
    exact ⟨_, gather_run_eq inv drv conn b hdrv⟩

/-- C5 witness: the direct-write facts at a concrete invocation with the
parent directory missing, and a concrete one-device run (driver lookup
succeeding, session failing) that hands its dict to the writer. -/
theorem C5_witness :
    FsOp.isRename (FsOp.mkdir ".") = false ∧
    FsOp.write "lldp_neighbors.json" [("r1", [])] ∈
      Gather.write_json_file "." false "lldp_neighbors.json" [("r1", [])] ∧
    (∃ d, Gather.run (.ok [("r1", DeviceInfo.mk "ios" "10.0.0.1")]) (fun _ => .ok ())
        (fun _ => .error DevErr.timeout) true =
      .finished d (Gather.write_json_file "." true "lldp_neighbors.json" d)) := by
  refine ⟨?_, ?_, ?_⟩
  · exact (C5_direct_write.1 "." false "lldp_neighbors.json" [("r1", [])]).2
      (FsOp.mkdir ".") (by simp [Gather.write_json_file])
  · exact (C5_direct_write.1 "." false "lldp_neighbors.json" [("r1", [])]).1
  · exact C5_direct_write.2 [("r1", DeviceInfo.mk "ios" "10.0.0.1")] _ _ true
      (fun p hp => rfl)

lemma renamed_iface_total (d : IfaceDict) (h : wf_iface d) :
    ∀ ifc ∈ rename_iface_total d, ∀ r ∈ ifc.2, renamed_record r = true := by
  intro ifc hifc r hr
  rw [rename_iface_total] at hifc
  obtain ⟨q, hq, hqe⟩ := List.mem_map.mp hifc
  rw [← hqe] at hr
  obtain ⟨r0, hr0, hr0e⟩ := List.mem_map.mp hr
  rw [← hr0e]
  exact (rename_neighbor_spec r0 (h q hq r0 hr0)).2.1

lemma renamed_lldp_total (d : LldpDict) (h : wf_lldp d) :
    ∀ dev ∈ rename_lldp_total d, ∀ ifc ∈ dev.2, ∀ r ∈ ifc.2, renamed_record r = true := by
  intro dev hdev ifc hifc r hr
  rw [rename_lldp_total] at hdev
  obtain ⟨q, hq, hqe⟩ := List.mem_map.mp hdev
  rw [← hqe] at hifc
  exact renamed_iface_total q.2 (fun i hi r' hr' => h q hq i hi r' hr') ifc hifc r hr

/-- C4 counterexample: the key renaming is not total over arbitrary
nested input shapes.  A neighbor record lacking the `hostname` key makes
`neighbor.pop("hostname")` raise `KeyError`, modelled as `Except.error`:
on the input mapping device `r1`, interface `Gi0/0`, to one empty
neighbor record, `replace_dict_key` raises instead of terminating
normally. -/
theorem C4_counterexample :
    Gather.replace_dict_key [("r1", [("Gi0/0", [([] : Record)])])] = .error () := rfl

/-- C4 (amended): the rename is total on every input whose neighbor
records all carry the `hostname` and `port` keys (which the NAPALM driver
output guarantees).  On such inputs both `replace_dict_key`
implementations terminate without raising, every output record has the
`neighbor` and `neighbor_interface` fields and no residual
`hostname`/`port` fields, and those fields carry the values formerly
under `hostname` and `port`. -/
theorem C4_rename_of_wf :
    (∀ d : LldpDict, wf_lldp d →
      Gather.replace_dict_key d = .ok (rename_lldp_total d) ∧
      ∀ dev ∈ rename_lldp_total d, ∀ ifc ∈ dev.2, ∀ r ∈ ifc.2, renamed_record r = true) ∧
    (∀ d : IfaceDict, wf_iface d →
      NtcGetNeighbors.replace_dict_key d = .ok (rename_iface_total d) ∧
      ∀ ifc ∈ rename_iface_total d, ∀ r ∈ ifc.2, renamed_record r = true) ∧
    (∀ r : Record, wf_record r = true →
      (rename_total r).lookup "neighbor" = r.lookup "hostname" ∧
      (rename_total r).lookup "neighbor_interface" = r.lookup "port") := by
  refine ⟨fun d h => ⟨gather_replace_spec d h, renamed_lldp_total d h⟩,
    fun d h => ⟨rename_iface_spec d h, renamed_iface_total d h⟩,
    fun r h => ⟨(rename_neighbor_spec r h).2.2.1, (rename_neighbor_spec r h).2.2.2⟩⟩

/-- C4 witness: the spec's end-to-end example, renamed without raising
and with the normalized fields carrying the former values. -/
theorem C4_witness :
    Gather.replace_dict_key [("r1", [("Gi0/0", [[("hostname", "sw1"), ("port", "Gi0/1")]])])] =
      .ok [("r1", [("Gi0/0", [[("neighbor", "sw1"), ("neighbor_interface", "Gi0/1")]])])] ∧
    (rename_total [("hostname", "sw1"), ("port", "Gi0/1")]).lookup "neighbor" = some "sw1" := by
  constructor
  · exact (C4_rename_of_wf.1 [("r1", [("Gi0/0", [[("hostname", "sw1"), ("port", "Gi0/1")]])])]
      (by unfold wf_lldp; decide)).1
  · exact (C4_rename_of_wf.2.2 [("hostname", "sw1"), ("port", "Gi0/1")] (by decide)).1

/-- C1 counterexample: one device failing with an exception outside the
two caught netmiko exception types aborts the whole backup loop.  On a
two-device inventory where `r1` raises such an error and `r2` would
succeed, the run crashes having produced zero results instead of two —
so the backup loop does not produce one result per device regardless of
which devices fail. -/
theorem C1_counterexample :
    Backup.run (.ok [("r1", DeviceInfo.mk "ios" "10.0.0.1"),
        ("r2", DeviceInfo.mk "ios" "10.0.0.2")]) [] "backup"
      (fun n _ => if n = "r1" then .error DevErr.other else .ok "output") =
      .crashed [] ∧
    (Backup.run (.ok [("r1", DeviceInfo.mk "ios" "10.0.0.1"),
        ("r2", DeviceInfo.mk "ios" "10.0.0.2")]) [] "backup"
      (fun n _ => if n = "r1" then .error DevErr.other else .ok "output")).written.length = 0 := by
  constructor
  · rfl
  · rfl

/-- C1 (amended): one result per inventory device.  The neighbor-gather
run records exactly one entry per device, keyed by device name,
regardless of per-device session failures (those are caught), provided
every device's type resolves to a NAPALM driver — a failing driver
lookup raises uncaught before the `try` and aborts the loop.  The backup
run writes exactly one file per device, at the device's `.cfg` path,
provided every per-device failure is a caught connect-timeout or
authentication failure; any other exception aborts the loop. -/
theorem C1_results_per_device :
    (∀ (commands : List (String × String)) (dir : String)
        (conn : String → String → Except DevErr String) (inv : Inventory),
      (∀ n c : String, conn n c ≠ .error DevErr.other) →
      (Backup.run (.ok inv) commands dir conn).written.length = inv.length ∧
      (Backup.run (.ok inv) commands dir conn).written.map Prod.fst =
        inv.map (fun p => cfgPath dir p.1)) ∧
    (∀ (inv : Inventory) (drv : String → Except Unit Unit)
        (conn : String → Except DevErr RawIfaceDict) (dir_exists : Bool),
      (∀ p ∈ inv, drv p.2.device_type = .ok ()) →
      ∃ d ops, Gather.run (.ok inv) drv conn dir_exists = .finished d ops ∧
        d.length = inv.length ∧ d.map Prod.fst = inv.map Prod.fst) := by
  constructor
  · intro commands dir conn inv h
    rw [backup_run_eq commands dir conn inv h]
    constructor
    · simp [Backup.BOutcome.written]
    · simp [Backup.BOutcome.written]
  · intro inv drv conn b hdrv
    refine ⟨_, _, gather_run_eq inv drv conn b hdrv, ?_, ?_⟩
    · simp [rename_lldp_total, Gather.collected]
    · simp [rename_lldp_total, Gather.collected]

/-- C1 witness: the amended statement at a concrete two-device inventory
where every device fails with a caught timeout, and a concrete one-device
gather inventory where the device fails. -/
theorem C1_witness :
    (Backup.run (.ok [("r1", DeviceInfo.mk "ios" "h1"), ("r2", DeviceInfo.mk "junos" "h2")])
      [] "backup" (fun _ _ => .error DevErr.timeout)).written.length = 2 ∧
    (∃ d ops, Gather.run (.ok [("r1", DeviceInfo.mk "ios" "h1")]) (fun _ => .ok ())
        (fun _ => .error DevErr.timeout) true = .finished d ops ∧
      d.length = 1 ∧ d.map Prod.fst = ["r1"]) := by
  constructor
  · exact (C1_results_per_device.1 [] "backup" _ _ (fun n c => by simp)).1
  · exact C1_results_per_device.2 [("r1", DeviceInfo.mk "ios" "h1")] _ _ true
      (fun p hp => rfl)

/-- C3: under caught failures only, a device whose connection fails with
a timeout or authentication error still gets its backup file written at
`dir/name.cfg` with empty content, and a device whose command succeeds
gets the raw command output written there. -/
theorem C3_backup_file_contents :
    ∀ (commands : List (String × String)) (dir : String)
      (conn : String → String → Except DevErr String) (inv : Inventory)
      (name : String) (info : DeviceInfo),
      (∀ n c : String, conn n c ≠ .error DevErr.other) →
      (name, info) ∈ inv →
      ((conn name (resolve_command commands info.device_type) = .error DevErr.timeout ∨
        conn name (resolve_command commands info.device_type) = .error DevErr.auth) →
        (cfgPath dir name, "") ∈ (Backup.run (.ok inv) commands dir conn).written) ∧
      (∀ out, conn name (resolve_command commands info.device_type) = .ok out →
        (cfgPath dir name, out) ∈ (Backup.run (.ok inv) commands dir conn).written) := by
  intro commands dir conn inv name info h hmem
  rw [backup_run_eq commands dir conn inv h]
  constructor
  · intro hfail
    have he : expected_content (conn name (resolve_command commands info.device_type)) = "" := by
      rcases hfail with hf | hf <;> rw [hf] <;> rfl
    refine List.mem_map.mpr ⟨(name, info), hmem, ?_⟩
    rw [he]
  · intro out hout
    refine List.mem_map.mpr ⟨(name, info), hmem, ?_⟩
    rw [hout]
    rfl

/-- C3 witness: the spec's end-to-end scenario — `r1` returns text, `r2`
times out; `backup/r2.cfg` is written empty and `backup/r1.cfg` carries
the returned text. -/
theorem C3_witness :
    (cfgPath "backup" "r2", "") ∈
      (Backup.run (.ok [("r1", DeviceInfo.mk "ios" "10.0.0.1"),
          ("r2", DeviceInfo.mk "junos" "10.0.0.2")]) [] "backup"
        (fun n _ => if n = "r2" then .error DevErr.timeout
                    else .ok "interface Gi0/0")).written ∧
    (cfgPath "backup" "r1", "interface Gi0/0") ∈
      (Backup.run (.ok [("r1", DeviceInfo.mk "ios" "10.0.0.1"),
          ("r2", DeviceInfo.mk "junos" "10.0.0.2")]) [] "backup"
        (fun n _ => if n = "r2" then .error DevErr.timeout
                    else .ok "interface Gi0/0")).written := by
  constructor
  · exact (C3_backup_file_contents [] "backup" _ _ "r2" (DeviceInfo.mk "junos" "10.0.0.2")
      (fun n c => by by_cases h : n = "r2" <;> simp [h]) (by decide)).1 (Or.inl rfl)
  · exact (C3_backup_file_contents [] "backup" _ _ "r1" (DeviceInfo.mk "ios" "10.0.0.1")
      (fun n c => by by_cases h : n = "r2" <;> simp [h]) (by decide)).2 "interface Gi0/0" rfl

/-- C6 counterexample: a run whose inventory is perfectly readable can
still exit non-zero.  With one device raising an exception outside the
caught netmiko types, the backup process dies with a traceback (non-zero
exit), refuting "non-zero if and only if the inventory cannot be
read". -/
theorem C6_counterexample :
    (Backup.run (.ok [("r1", DeviceInfo.mk "ios" "10.0.0.1")]) [] "backup"
      (fun _ _ => .error DevErr.other)).exit_code = 1 := rfl

/-- C6 (amended): an unreadable inventory file makes both scripts exit
non-zero via `sys.exit(1)`.  With a readable inventory the gather run
exits zero provided every device's type resolves to a NAPALM driver
(per-device session errors are caught); a failing driver lookup raises
uncaught and the process exits non-zero even though the inventory was
readable.  The backup run exits zero provided each per-device failure is
a caught timeout or authentication failure — any other per-device
exception crashes the process with a non-zero exit. -/
theorem C6_exit_codes :
    (∀ (e : Unit) (commands : List (String × String)) (dir : String)
        (conn : String → String → Except DevErr String),
      (Backup.run (.error e) commands dir conn).exit_code = 1) ∧
    (∀ (e : Unit) (drv : String → Except Unit Unit)
        (conn : String → Except DevErr RawIfaceDict) (dir_exists : Bool),
      (Gather.run (.error e) drv conn dir_exists).exit_code = 1) ∧
    (∀ (commands : List (String × String)) (dir : String)
        (conn : String → String → Except DevErr String) (inv : Inventory),
      (∀ n c : String, conn n c ≠ .error DevErr.other) →
      (Backup.run (.ok inv) commands dir conn).exit_code = 0) ∧
    (∀ (inv : Inventory) (drv : String → Except Unit Unit)
        (conn : String → Except DevErr RawIfaceDict) (dir_exists : Bool),
      (∀ p ∈ inv, drv p.2.device_type = .ok ()) →
      (Gather.run (.ok inv) drv conn dir_exists).exit_code = 0) ∧
    (∀ (inv : Inventory) (drv : String → Except Unit Unit)
        (conn : String → Except DevErr RawIfaceDict) (dir_exists : Bool),
      (∃ p ∈ inv, drv p.2.device_type = .error ()) →
      (Gather.run (.ok inv) drv conn dir_exists).exit_code = 1) := by
  refine ⟨fun e commands dir conn => rfl, fun e drv conn b => rfl, ?_, ?_, ?_⟩
  · intro commands dir conn inv h
    rw [backup_run_eq commands dir conn inv h]
    rfl
  · intro inv drv conn b hdrv
    rw [gather_run_eq inv drv conn b hdrv]
    rfl
  · intro inv drv conn b hbad
    rw [gather_run_crashed inv drv conn b hbad]
    rfl

/-- C6 witness: concrete unreadable-inventory runs exiting 1, concrete
readable runs with caught failing devices exiting 0, and a concrete
readable run crashing on a failed driver lookup. -/
theorem C6_witness :
    (Backup.run (.error ()) [] "backup" (fun _ _ => .ok "x")).exit_code = 1 ∧
    (Gather.run (.error ()) (fun _ => .ok ()) (fun _ => .ok []) true).exit_code = 1 ∧
    (Backup.run (.ok [("r1", DeviceInfo.mk "ios" "h")]) [] "backup"
      (fun _ _ => .error DevErr.timeout)).exit_code = 0 ∧
    (Gather.run (.ok [("r1", DeviceInfo.mk "ios" "h")]) (fun _ => .ok ())
      (fun _ => .error DevErr.auth) true).exit_code = 0 ∧
    (Gather.run (.ok [("r1", DeviceInfo.mk "bad_type" "h")]) (fun _ => .error ())
      (fun _ => .ok []) true).exit_code = 1 := by
  refine ⟨C6_exit_codes.1 () [] "backup" _, C6_exit_codes.2.1 () _ _ true,
    C6_exit_codes.2.2.1 [] "backup" _ _ (fun n c => by simp),
    C6_exit_codes.2.2.2.1 _ _ _ true (fun p hp => rfl),
    C6_exit_codes.2.2.2.2 _ _ _ true
      ⟨("r1", DeviceInfo.mk "bad_type" "h"), List.mem_cons_self _ _, rfl⟩⟩

/-- C10 counterexample: not every failed neighbor fetch leaves an empty
entry for the device.  When the fetch fails at
`get_network_driver(device_info["device_type"])` — which runs before the
`try:` block, e.g. for an unsupported device type — the exception
propagates, the run crashes, and no JSON document is written at all: the
failed device maps to nothing. -/
theorem C10_counterexample :
    Gather.run (.ok [("r1", DeviceInfo.mk "not_a_napalm_driver" "10.0.0.1")])
      (fun _ => .error ()) (fun _ => .ok []) true = .crashed := rfl

/-- C10 (amended): a device whose neighbor fetch fails inside the `try`
block (a session error caught by `except BaseException`) is not omitted
from the aggregated output — its name maps to the empty dict — provided
every device's driver lookup succeeds.  The fetch returns the empty dict
on such an error, the key rename leaves the empty per-device entry
unchanged, and the written JSON document contains the entry
`name ↦ \x7b\x7d`.  A fetch failing at the driver lookup instead crashes
the run with nothing written. -/
theorem C10_failed_device_entry :
    ∀ (inv : Inventory) (drv : String → Except Unit Unit)
      (conn : String → Except DevErr RawIfaceDict) (dir_exists : Bool)
      (name : String) (info : DeviceInfo) (e : DevErr),
      (∀ p ∈ inv, drv p.2.device_type = .ok ()) →
      (inv.map Prod.fst).Nodup →
      (name, info) ∈ inv →
      conn name = .error e →
      ∃ d ops, Gather.run (.ok inv) drv conn dir_exists = .finished d ops ∧
        d.lookup name = some ([] : IfaceDict) ∧
        FsOp.write "lldp_neighbors.json" d ∈ ops := by
  intro inv drv conn b name info e hdrv hnd hmem hconn
  refine ⟨_, _, gather_run_eq inv drv conn b hdrv, ?_, ?_⟩
  · have hd : rename_lldp_total (Gather.collected inv conn) =
        inv.map (fun p =>
          (p.1, rename_iface_total (rawToIfaceDict (Gather.fetch_result (conn p.1))))) := by
      rw [rename_lldp_total, Gather.collected, List.map_map]
      rfl
    rw [hd, lookup_map_of_nodup inv
      (fun p => rename_iface_total (rawToIfaceDict (Gather.fetch_result (conn p.1))))
      name info hnd hmem, hconn]
    rfl
  · rw [Gather.write_json_file]
    simp

/-- C10 witness: a one-device inventory whose device's driver lookup
succeeds but whose session fails; the finished run's document maps the
device name to the empty dict and is written to `lldp_neighbors.json`. -/
theorem C10_witness :
    ∃ d ops, Gather.run (.ok [("r1", DeviceInfo.mk "ios" "10.0.0.1")]) (fun _ => .ok ())
        (fun _ => .error DevErr.timeout) true = .finished d ops ∧
      d.lookup "r1" = some ([] : IfaceDict) ∧
      FsOp.write "lldp_neighbors.json" d ∈ ops :=
  C10_failed_device_entry [("r1", DeviceInfo.mk "ios" "10.0.0.1")] _ _ true "r1"
    (DeviceInfo.mk "ios" "10.0.0.1") DevErr.timeout (fun p hp => rfl) (by decide)
    (by decide) rfl

/-- C7: push ordering of the `ntc_snmp` module.  With `replace` set and
both pushes connecting, the run performs, in order: fetch of the current
SNMP state, render of the teardown template over that state, push of the
teardown config (load, compare, commit when non-empty), then render of
the target template over the module parameters and push of the target
config.  With `replace` unset it renders and pushes only the target
configuration. -/
lemma generate_config_fst (render : String → RenderData → String) (t : String)
    (d : RenderData) : (NtcSnmp.generate_config render t d).1 = render t d := rfl

lemma generate_config_snd (render : String → RenderData → String) (t : String)
    (d : RenderData) : (NtcSnmp.generate_config render t d).2 = [SnmpEv.render t] := rfl

lemma get_snmp_info_snd (sconn : Except DevErr SnmpData) :
    (NtcSnmp.get_snmp_info sconn).2 = [SnmpEv.get_snmp_info] := rfl

theorem C7_push_config_order :
    (∀ (p : ModuleParams) (render : String → RenderData → String)
        (sconn : Except DevErr SnmpData) (conn : String → Except DevErr String)
        (d1 d2 : String),
      p.replace = true →
      conn (render NtcSnmp.no_snmp_template
        (.snmpInfo (NtcSnmp.get_snmp_info sconn).1)) = .ok d1 →
      conn (render NtcSnmp.snmp_template (.params p)) = .ok d2 →
      (NtcSnmp.main p render sconn conn).2 =
        [SnmpEv.get_snmp_info, SnmpEv.render NtcSnmp.no_snmp_template,
         SnmpEv.load_merge (render NtcSnmp.no_snmp_template
           (.snmpInfo (NtcSnmp.get_snmp_info sconn).1)),
         SnmpEv.compare_config] ++ NtcSnmp.commit_evs d1 ++
        ([SnmpEv.render NtcSnmp.snmp_template,
          SnmpEv.load_merge (render NtcSnmp.snmp_template (.params p)),
          SnmpEv.compare_config] ++ NtcSnmp.commit_evs d2)) ∧
    (∀ (p : ModuleParams) (render : String → RenderData → String)
        (sconn : Except DevErr SnmpData) (conn : String → Except DevErr String)
        (d2 : String),
      p.replace = false →
      conn (render NtcSnmp.snmp_template (.params p)) = .ok d2 →
      (NtcSnmp.main p render sconn conn).2 =
        [SnmpEv.render NtcSnmp.snmp_template,
         SnmpEv.load_merge (render NtcSnmp.snmp_template (.params p)),
         SnmpEv.compare_config] ++ NtcSnmp.commit_evs d2) := by
  constructor
  · intro p render sconn conn d1 d2 hrep hc1 hc2
    rw [NtcSnmp.main]
    simp only [hrep, if_true, generate_config_fst, generate_config_snd, get_snmp_info_snd,
      hc1, hc2, NtcSnmp.config_device]
    simp [List.append_assoc]
  · intro p render sconn conn d2 hrep hc2
    rw [NtcSnmp.main]
    simp only [hrep, if_false, generate_config_fst, generate_config_snd, hc2,
      NtcSnmp.config_device]
    simp

/-- C7 witness: a concrete module invocation for each value of the
replace flag, with a template engine returning a fixed config and a
device whose compare yields a non-empty diff. -/
theorem C7_witness :
    (NtcSnmp.main
      (ModuleParams.mk "ios" (Provider.mk "10.0.0.1" "ntc" "ntc123") [] "Jason" "NY" true)
      (fun _ _ => "cfg") (.ok []) (fun _ => .ok "+snmp")).2 =
      [SnmpEv.get_snmp_info, SnmpEv.render NtcSnmp.no_snmp_template,
       SnmpEv.load_merge "cfg", SnmpEv.compare_config, SnmpEv.commit_config,
       SnmpEv.render NtcSnmp.snmp_template, SnmpEv.load_merge "cfg",
       SnmpEv.compare_config, SnmpEv.commit_config] ∧
    (NtcSnmp.main
      (ModuleParams.mk "ios" (Provider.mk "10.0.0.1" "ntc" "ntc123") [] "Jason" "NY" false)
      (fun _ _ => "cfg") (.ok []) (fun _ => .ok "+snmp")).2 =
      [SnmpEv.render NtcSnmp.snmp_template, SnmpEv.load_merge "cfg",
       SnmpEv.compare_config, SnmpEv.commit_config] := by
  constructor
  · have h := C7_push_config_order.1
      (ModuleParams.mk "ios" (Provider.mk "10.0.0.1" "ntc" "ntc123") [] "Jason" "NY" true)
      (fun _ _ => "cfg") (.ok []) (fun _ => .ok "+snmp") "+snmp" "+snmp" rfl rfl rfl
    simpa using h
  · have h := C7_push_config_order.2
      (ModuleParams.mk "ios" (Provider.mk "10.0.0.1" "ntc" "ntc123") [] "Jason" "NY" false)
      (fun _ _ => "cfg") (.ok []) (fun _ => .ok "+snmp") "+snmp" rfl rfl
    simpa using h
